import Mathlib

/-!
Shallow embedding of the conversation state machine and ride lifecycle
coordinator of the chat-based taxi booking backend
(`src/services/conversation.service.ts` and
`src/services/machineGlobal.service.ts`).

Database writes, outbound channel sends and dispatch-provider calls are
modelled as an explicit effect record (`StepResult`); results of external
calls (intent classifier, geocoder, provider quote/create/cancel, database
lookups, clock) are supplied through an explicit environment (`Env`), so
every handler is a pure, executable Lean function mirroring the TypeScript
control flow branch by branch.
-/

namespace Taxi

abbrev Timestamp := Nat

/-- `VehicleCategory` Prisma enum. -/
inductive VehicleCategory
  | CARRO_PEQUENO
  | CARRO_GRANDE
deriving DecidableEq, Repr

/-- `ConversationState` Prisma enum (members referenced by the service). -/
inductive ConversationState
  | GREETING
  | REQUESTING_LOCATION
  | AWAITING_ORIGIN
  | CONFIRMING_ORIGIN
  | AWAITING_DESTINATION
  | AWAITING_CATEGORY
  | SHOWING_PRICE
  | AWAITING_CONFIRMATION
  | CREATING_RIDE
  | RIDE_CREATED
  | RIDE_IN_PROGRESS
  | RIDE_COMPLETED
  | ERROR
deriving DecidableEq, Repr

/-- `RideStatus` Prisma enum (members referenced by the service;
`REQUESTED` is the default of `MachineGlobalService.mapStatus`). -/
inductive RideStatus
  | REQUESTED
  | DISTRIBUTING
  | AWAITING_ACCEPT
  | PENDING
  | NO_DRIVER
  | ACCEPTED
  | DRIVER_ARRIVING
  | DRIVER_ARRIVED
  | IN_PROGRESS
  | COMPLETED
  | CANCELLED
  | AWAITING_PAYMENT
  | FAILED
deriving DecidableEq, Repr

/-- Does the first character list start with the second? -/
def charsStartWith : List Char → List Char → Bool
  | _, [] => true
  | [], _ :: _ => false
  | a :: as, b :: bs => a = b && charsStartWith as bs

/-- Does the first character list contain the second as a contiguous run? -/
def charsContain : List Char → List Char → Bool
  | [], sub => sub.isEmpty
  | a :: as, sub => charsStartWith (a :: as) sub || charsContain as sub

/-- JS string method semantics used by the handlers:
`s.includes(sub)` — substring containment. -/
def jsIncludes (s sub : String) : Bool :=
  charsContain s.toList sub.toList

/-- JS `s.toLowerCase()` (over the character list, mirroring
`String.map Char.toLower`). -/
def jsToLower (s : String) : String :=
  ⟨s.data.map Char.toLower⟩

/-- JS numeric truthiness of an optional number
(`undefined` and `0` are falsy). -/
def jsTruthyNum (o : Option ℚ) : Bool :=
  match o with
  | some q => decide (q ≠ 0)
  | none => false

/-- JS `a || d` on an optional number (`undefined` and `0` fall back). -/
def jsOrNum (o : Option ℚ) (d : ℚ) : ℚ :=
  match o with
  | some q => if q = 0 then d else q
  | none => d

/-- `PricingRule` record of `conversation.service.ts` (pricing fields). -/
structure PricingRule where
  baseFare : ℚ
  pricePerKm : ℚ
  pricePerMinute : ℚ
  minimumFare : ℚ
  displayName : String
deriving DecidableEq, Repr

/-- `PRICING_RULES` rate table: the single source of truth for pricing. -/
def PRICING_RULES : VehicleCategory → PricingRule
  | .CARRO_PEQUENO =>
      { baseFare := 5.00, pricePerKm := 2.00, pricePerMinute := 0.35
        minimumFare := 9.00, displayName := "Carro Pequeno" }
  | .CARRO_GRANDE =>
      { baseFare := 7.00, pricePerKm := 2.00, pricePerMinute := 0.55
        minimumFare := 9.00, displayName := "Carro Grande" }

/-- `calculatePrice`: base fare plus distance and duration components
floored at the category's minimum fare.  (The JS lookup
`PRICING_RULES[category] || PRICING_RULES.CARRO_PEQUENO` is total here
because `VehicleCategory` is closed.) -/
def calculatePrice (category : VehicleCategory)
    (distanceKm durationMinutes : ℚ) : ℚ :=
  let rules := PRICING_RULES category
  let calculatedPrice := rules.baseFare +
    distanceKm * rules.pricePerKm +
    durationMinutes * rules.pricePerMinute
  max calculatedPrice rules.minimumFare

/-- `mapCategoryToApi`: map the local category enum to the Machine Global
category string. -/
def mapCategoryToApi (category : Option VehicleCategory) : String :=
  match category with
  | none => "Carro"
  | some .CARRO_PEQUENO => "Carro"
  | some .CARRO_GRANDE => "Premium"

/-- Origin/destination entry of the conversation context. -/
structure Location where
  address : String
  latitude : Option ℚ := none
  longitude : Option ℚ := none
  isAutoDetected : Option Bool := none
deriving DecidableEq, Repr

/-- `ConversationContext`: the per-conversation booking draft stored in the
conversation's JSON `context` field. -/
structure ConversationContext where
  origin : Option Location := none
  destination : Option Location := none
  category : Option VehicleCategory := none
  estimatedPrice : Option ℚ := none
  estimatedDistance : Option ℚ := none
  estimatedDuration : Option ℚ := none
  locationRequestSent : Option Bool := none
  locationRequestTime : Option Timestamp := none
  flowStarted : Option Bool := none
deriving DecidableEq, Repr

/-- JS template-literal rendering of `context.origin?.address` and the
like: an absent object interpolates as the string `undefined`. -/
def optAddress (loc : Option Location) : String :=
  match loc with
  | some l => l.address
  | none => "undefined"

/-- Structured intent returned by `openaiService.extractRideIntent`
(classifier with keyword fallback).  `destinationText` is
`intent.destination.text`. -/
structure RideIntent where
  hasDestination : Bool := false
  destinationText : Option String := none
  isConfirmation : Bool := false
  isCancellation : Bool := false
deriving DecidableEq, Repr

/-- Inbound message type after webhook parsing. -/
inductive MsgType
  | text
  | audio
  | location
  | interactive
deriving DecidableEq, Repr

/-- Metadata attached to an inbound message (GPS payload fields). -/
structure Meta where
  latitude : Option ℚ := none
  longitude : Option ℚ := none
  name : Option String := none
  address : Option String := none
deriving DecidableEq, Repr

/-- The conversation row fields the handlers read. -/
structure Conv where
  id : String
  phoneNumber : String
  customerId : String
  customerName : Option String := none
  state : ConversationState
deriving DecidableEq, Repr

/-- A WhatsApp interactive button `{id, title}`. -/
structure Button where
  id : String
  title : String
deriving DecidableEq, Repr

/-- Bodies of the outbound messages, one constructor per template in the
source; each carries exactly the data the template interpolates. -/
inductive MsgBody
  /-- greeting line of `handleGreeting` (personalised / anonymous) -/
  | greeting (customerName : Option String)
  /-- "Compartilhe sua localização atual para começarmos." -/
  | shareLocationStart
  /-- "Por favor, compartilhe sua localização atual clicando no botão acima." -/
  | gpsRetryCurrent
  /-- "Toque no botão acima para compartilhar sua localização." -/
  | gpsReminderTap
  /-- "📍 {addr}  🎯 Para onde você quer ir?" -/
  | originThenDestinationPrompt (originAddress : String)
  /-- "✅ Origem confirmada! 🎯 Para onde você quer ir?" -/
  | originConfirmed
  /-- "Digite o novo endereço de partida ou compartilhe outra localização." -/
  | changeOriginPrompt
  /-- "Por favor, compartilhe sua localização clicando no botão acima." -/
  | gpsRetryShare
  /-- "Origem atual: {addr}  Está correto?" -/
  | confirmOriginQuestion (originAddress : String)
  /-- category menu body "📍 {origin} 🎯 {destination} Escolha o tipo de carro:" -/
  | categoryChoices (originAddress destinationAddress : String)
  /-- "🎯 Digite o endereço ou nome do local de destino." -/
  | destinationPrompt
  /-- booking summary "📍 {o} 🎯 {d} 🚗 {name} 💰 R$ {price}" -/
  | priceSummary (originAddress destinationAddress categoryName : String) (price : ℚ)
  /-- "Digite o novo endereço de embarque ou compartilhe sua localização." -/
  | newOriginPrompt
  /-- "Digite o novo endereço de destino ou compartilhe a localização." -/
  | newDestinationPrompt
  /-- "Não foi possível calcular o preço da corrida. ..." -/
  | priceError
  /-- "Faltam informações sobre o endereço. ..." -/
  | addressError
  /-- "Buscando motoristas disponíveis..." -/
  | searchingDrivers
  /-- "Corrida confirmada! ... Código: {code}" -/
  | rideConfirmed (categoryName : String) (price : ℚ) (code : String)
  /-- "Não conseguimos encontrar motoristas disponíveis no momento. ..." -/
  | noDriversAvailable
  /-- "Ocorreu um problema ao solicitar sua corrida. ..." -/
  | unexpectedCreateError
  /-- "Compartilhe sua localização para continuar." (resume flow) -/
  | resumeLocationPrompt
  /-- "🎯 Para onde você quer ir?" (resume flow) -/
  | resumeDestinationPrompt
  /-- "Tem certeza que deseja cancelar a corrida?" -/
  | cancelConfirmQuestion
  /-- per-status text of `handleActiveRide` -/
  | activeRideStatus (status : RideStatus)
      (driverName driverVehicle driverPlate : Option String)
  /-- `openaiService.generateCancellationMessage()` output -/
  | cancellationMessage
  /-- `openaiService.generateDriverAssignedMessage(...)` output -/
  | driverAssigned (nome veiculo placa : String) (tempoChegada : ℚ)
      (avaliacao : Option ℚ)
  /-- `openaiService.generateNoDriverMessage()` output -/
  | noDriverMessage
  /-- "Corrida finalizada! Valor: R$ {price} ..." -/
  | rideFinished (price : ℚ)
  /-- "Sua corrida foi cancelada. ..." -/
  | rideCancelledNotice
deriving DecidableEq, Repr

/-- An outbound channel send (text / interactive buttons / location
request). -/
inductive OutMsg
  | text (body : MsgBody)
  | buttons (body : MsgBody) (choices : List Button)
  | locationRequest (body : MsgBody)
deriving DecidableEq, Repr

/-- The ride row fields the service reads and writes. -/
structure RideRow where
  id : String
  machineRideId : Option String := none
  originAddress : String := ""
  originLatitude : Option ℚ := none
  originLongitude : Option ℚ := none
  destinationAddress : String := ""
  destinationLatitude : Option ℚ := none
  destinationLongitude : Option ℚ := none
  category : VehicleCategory := .CARRO_PEQUENO
  estimatedPrice : Option ℚ := none
  estimatedDistance : Option ℚ := none
  estimatedDuration : Option ℚ := none
  finalPrice : Option ℚ := none
  status : RideStatus := .DISTRIBUTING
  driverName : Option String := none
  driverPhone : Option String := none
  driverVehicle : Option String := none
  driverPlate : Option String := none
  driverRating : Option ℚ := none
  acceptedAt : Option Timestamp := none
  startedAt : Option Timestamp := none
  completedAt : Option Timestamp := none
  cancelledAt : Option Timestamp := none
deriving DecidableEq, Repr

/-- A `rideEvent` audit row (type and title as written by the service). -/
structure RideEventRow where
  rideId : String
  eventType : String
  title : String
deriving DecidableEq, Repr

/-- Request sent to the dispatch provider's `createRide`. -/
structure CreateRideReq where
  origemEndereco : String
  origemLatitude : Option ℚ := none
  origemLongitude : Option ℚ := none
  destinoEndereco : String
  destinoLatitude : Option ℚ := none
  destinoLongitude : Option ℚ := none
  passageiroNome : String
  passageiroTelefone : String
  categoria : String
  formaPagamento : String := "D"
deriving DecidableEq, Repr

/-- Observable effects of one handler run, in program order per list. -/
structure StepResult where
  /-- `updateConversation` calls: (state, context) pairs in order -/
  stateUpdates : List (ConversationState × ConversationContext) := []
  /-- outbound channel sends in order -/
  messages : List OutMsg := []
  /-- `prisma.ride.create` rows -/
  rideInserts : List RideRow := []
  /-- `prisma.ride.update` results (the updated row) -/
  rideUpdates : List RideRow := []
  /-- `prisma.rideEvent.create` rows -/
  rideEvents : List RideEventRow := []
  /-- dispatch-provider `createRide` calls -/
  provCreateCalls : List CreateRideReq := []
  /-- dispatch-provider `cancelRide` calls (provider ride id) -/
  provCancelCalls : List String := []
  /-- conversation deactivated (`isActive := false`) -/
  deactivated : Bool := false
deriving DecidableEq, Repr

/-! ### Machine Global client (`machineGlobal.service.ts`) -/

/-- `corrida` part of the provider's create-ride response body. -/
structure Corrida where
  id : String
  status : String
deriving DecidableEq, Repr

/-- `RideResponse` of `machineGlobal.service.ts`. -/
structure RideResponse where
  success : Bool
  corrida : Option Corrida := none
  errors : List String := []
deriving DecidableEq, Repr

/-- `cotacao` part of `PriceQuoteResponse`. -/
structure Cotacao where
  valorEstimado : ℚ
  distanciaKm : ℚ
  tempoEstimado : ℚ
deriving DecidableEq, Repr

/-- `PriceQuoteResponse` of `machineGlobal.service.ts`. -/
structure PriceQuoteResponse where
  success : Bool
  cotacao : Option Cotacao := none
  errors : List String := []
deriving DecidableEq, Repr

/-- Outcome of an HTTP call to the provider: a parsed response body, an
HTTP-level error, or a thrown (network) error. -/
inductive ProviderOutcome (α : Type)
  | ok (body : α)
  | httpError (errs : List String)
  | thrown (message : String)
deriving DecidableEq, Repr

/-- `MachineGlobalService.handleError`: uniform conversion of any caught
error into `{success: false, errors}`. -/
def handleErrorResult (errs : List String) : RideResponse :=
  { success := false, corrida := none, errors := errs }

/-- `MachineGlobalService.createRide`: returns the response body on
success and absorbs every caught error (HTTP or thrown) into a
`{success: false}` result — the method itself never throws. -/
def mgCreateRide (outcome : ProviderOutcome RideResponse) : RideResponse :=
  match outcome with
  | .ok body => body
  | .httpError errs => handleErrorResult errs
  | .thrown message => handleErrorResult [message]

/-- `{success, errors}` response shape of `MachineGlobalService.cancelRide`. -/
structure CancelResponse where
  success : Bool
  errors : List String := []
deriving DecidableEq, Repr

/-- `MachineGlobalService.cancelRide`: returns the response body on
success and absorbs every caught error into `{success: false}` — the
method itself never throws, so the caller's local cancellation always
proceeds. -/
def mgCancelRide (outcome : ProviderOutcome CancelResponse) : CancelResponse :=
  match outcome with
  | .ok body => body
  | .httpError errs => { success := false, errors := errs }
  | .thrown message => { success := false, errors := [message] }

/-- `MachineGlobalService.mapStatus`: provider status code → local ride
status (default `REQUESTED`). -/
def mapStatus (machineStatus : String) : RideStatus :=
  if machineStatus = "D" then .DISTRIBUTING
  else if machineStatus = "G" then .AWAITING_ACCEPT
  else if machineStatus = "P" then .PENDING
  else if machineStatus = "N" then .NO_DRIVER
  else if machineStatus = "A" then .ACCEPTED
  else if machineStatus = "E" then .IN_PROGRESS
  else if machineStatus = "F" then .COMPLETED
  else if machineStatus = "C" then .CANCELLED
  else if machineStatus = "R" then .AWAITING_PAYMENT
  else .REQUESTED

/-! ### Environment: results of external calls and database lookups -/

/-- Results of the external calls a single handler run may perform;
supplying them explicitly makes every handler a pure function. -/
structure Env where
  /-- `reverseGeocode` result for this run (the function itself already
  falls back to a generic string on failure, so it always yields one) -/
  geocodedAddress : String := ""
  /-- `machineGlobalService.getPriceQuote` result -/
  quote : PriceQuoteResponse := { success := false }
  /-- outcome of the provider `createRide` HTTP call -/
  createOutcome : ProviderOutcome RideResponse := .httpError []
  /-- outcome of the provider `cancelRide` HTTP call -/
  cancelOutcome : ProviderOutcome CancelResponse := .httpError []
  /-- id assigned by the store to a newly inserted ride row -/
  newRideId : String := ""
  /-- `prisma.ride.findFirst` with the active-status filter
  (`handleActiveRide`) -/
  activeRide : Option RideRow := none
  /-- `prisma.ride.findFirst` with the non-terminal filter
  (`handleCancellation`) -/
  nonTerminalRide : Option RideRow := none
  /-- `Date.now()` / `new Date()` during this run -/
  now : Timestamp := 0
deriving Repr

/-! ### Conversation state machine (`conversation.service.ts`) -/

/-- JS truthiness of an optional boolean flag. -/
def jsTruthyBool (o : Option Bool) : Bool :=
  match o with
  | some b => b
  | none => false

/-- JS truthiness of an optional string (`undefined` and `""` are falsy). -/
def jsTruthyStr (o : Option String) : Bool :=
  match o with
  | some s => decide (s ≠ "")
  | none => false

/-- JS `intent.hasDestination && intent.destination` guard, yielding
`intent.destination.text` when it passes. -/
def intentDest (intent : RideIntent) : Option String :=
  if intent.hasDestination then intent.destinationText else none

/-- `context.origin?.address || ''` (used when building the ride row). -/
def addrOrEmpty (loc : Option Location) : String :=
  match loc with
  | some l => l.address
  | none => ""

/-- `PRICING_RULES[category]?.displayName || 'Carro Pequeno'`. -/
def displayNameOrDefault (category : Option VehicleCategory) : String :=
  match category with
  | some c => (PRICING_RULES c).displayName
  | none => "Carro Pequeno"

/-- The category menu buttons of `showCategorySelection`. -/
def categoryButtons : List Button :=
  [⟨"cat_pequeno", "Carro Pequeno"⟩, ⟨"cat_grande", "Carro Grande"⟩]

/-- The confirm/alter/cancel buttons shown with every booking summary. -/
def confirmButtons : List Button :=
  [⟨"confirm_ride", "Confirmar"⟩, ⟨"change_category", "Alterar"⟩, ⟨"cancel_ride", "Cancelar"⟩]

/-- The retry/cancel buttons of the ride-creation error paths. -/
def retryCancelButtons : List Button :=
  [⟨"retry_ride", "Tentar novamente"⟩, ⟨"cancel_ride", "Cancelar"⟩]

/-- The reverse-geocoded, auto-detected origin stored after a GPS
share. -/
def gpsOrigin (addr : String) (meta : Meta) : Location :=
  { address := addr
    latitude := meta.latitude
    longitude := meta.longitude
    isAutoDetected := some true }

/-- `showCategorySelection`: the category menu message. -/
def showCategorySelection (ctx : ConversationContext) : OutMsg :=
  .buttons (.categoryChoices (optAddress ctx.origin) (optAddress ctx.destination))
    categoryButtons

/-- `handleGreeting`: greet, mark the flow started, store a classifier
destination if present, move to `REQUESTING_LOCATION`, request GPS. -/
def handleGreeting (conv : Conv) (intent : RideIntent)
    (ctx : ConversationContext) (env : Env) : StepResult :=
  let ctx1 := { ctx with
    flowStarted := some true
    locationRequestSent := some true
    locationRequestTime := some env.now }
  let ctx2 :=
    match intentDest intent with
    | some t => { ctx1 with destination := some { address := t } }
    | none => ctx1
  { stateUpdates := [(.REQUESTING_LOCATION, ctx2)]
    messages := [.text (.greeting conv.customerName),
                 .locationRequest .shareLocationStart] }

/-- `handleLocationRequest`: accept a shared GPS location (reverse
geocoded); typed text only re-prompts for GPS (typed origins are
rejected; an extracted destination is noted in memory but the
conversation row is not updated). -/
def handleLocationRequest (message : String) (messageType : MsgType)
    (meta : Meta) (_intent : RideIntent) (ctx : ConversationContext)
    (env : Env) : StepResult :=
  if messageType = .location && jsTruthyNum meta.latitude
      && jsTruthyNum meta.longitude then
    let ctx1 := { ctx with origin := some (gpsOrigin env.geocodedAddress meta) }
    if ctx1.destination.isSome then
      { stateUpdates := [(.AWAITING_CATEGORY, ctx1)]
        messages := [showCategorySelection ctx1] }
    else
      { stateUpdates := [(.AWAITING_DESTINATION, ctx1)]
        messages := [.text (.originThenDestinationPrompt env.geocodedAddress)] }
  else if message.length > 3 then
    { messages := [.locationRequest .gpsRetryCurrent] }
  else
    { messages := [.locationRequest .gpsReminderTap] }

/-- `handleOriginConfirmation`: confirm or change an auto-detected
origin. -/
def handleOriginConfirmation (message : String) (messageType : MsgType)
    (meta : Meta) (intent : RideIntent) (ctx : ConversationContext)
    (env : Env) : StepResult :=
  let lower := jsToLower message
  if intent.isConfirmation || jsIncludes lower "sim" || jsIncludes lower "ok"
      || jsIncludes lower "correto" then
    { stateUpdates := [(.AWAITING_DESTINATION, ctx)]
      messages := [.locationRequest .originConfirmed] }
  else if jsIncludes lower "mudar" || jsIncludes lower "alterar"
      || jsIncludes lower "outro" then
    { stateUpdates := [(.AWAITING_ORIGIN, ctx)]
      messages := [.locationRequest .changeOriginPrompt] }
  else if messageType = .location && jsTruthyNum meta.latitude
      && jsTruthyNum meta.longitude then
    let ctx1 := { ctx with origin := some (gpsOrigin env.geocodedAddress meta) }
    { stateUpdates := [(.AWAITING_DESTINATION, ctx1)]
      messages := [.text (.originThenDestinationPrompt env.geocodedAddress)] }
  else if message.length > 3 then
    { messages := [.locationRequest .gpsRetryShare] }
  else
    { messages := [.buttons (.confirmOriginQuestion (optAddress ctx.origin))
        [⟨"confirm_origin", "Sim, está correto"⟩, ⟨"change_origin", "Não, alterar"⟩]] }

/-- `handleOriginInput`: GPS sets the origin; typed text re-prompts for
GPS. -/
def handleOriginInput (messageType : MsgType) (meta : Meta)
    (ctx : ConversationContext) (env : Env) : StepResult :=
  if messageType = .location && jsTruthyNum meta.latitude
      && jsTruthyNum meta.longitude then
    let ctx1 := { ctx with origin := some (gpsOrigin env.geocodedAddress meta) }
    { stateUpdates := [(.AWAITING_DESTINATION, ctx1)]
      messages := [.text (.originThenDestinationPrompt env.geocodedAddress)] }
  else
    { messages := [.locationRequest .gpsRetryShare] }

/-- `handleDestinationInput`: accept a shared location, a classifier
destination, or any text longer than three characters. -/
def handleDestinationInput (message : String) (messageType : MsgType)
    (meta : Meta) (intent : RideIntent) (ctx : ConversationContext)
    (env : Env) : StepResult :=
  let setDest : Option Location :=
    if messageType = .location && jsTruthyNum meta.latitude
        && jsTruthyNum meta.longitude then
      some { address := env.geocodedAddress
             latitude := meta.latitude
             longitude := meta.longitude }
    else
      match intentDest intent with
      | some t => some { address := t }
      | none =>
        if message.length > 3 then some { address := message } else none
  match setDest with
  | some d =>
    let ctx1 := { ctx with destination := some d }
    { stateUpdates := [(.AWAITING_CATEGORY, ctx1)]
      messages := [showCategorySelection ctx1] }
  | none =>
    { messages := [.text .destinationPrompt] }

/-- The keyword/button match of `handleCategorySelection` choosing
`CARRO_GRANDE` (the initial value and the explicit small-car match both
yield `CARRO_PEQUENO`). -/
def chooseCategory (message : String) : VehicleCategory :=
  let lower := jsToLower message
  if jsIncludes lower "grande" || jsIncludes lower "confort"
      || message = "cat_grande" || message = "cat_confort" then
    .CARRO_GRANDE
  else
    .CARRO_PEQUENO

/-- `handleCategorySelection`: pick the category, take distance/duration
from the provider quote (never its price; fixed defaults 3.0 km / 8 min
when the quote fails or a field is falsy), compute the price with the
local rules, clamp at the minimum fare, and show the booking summary in
`AWAITING_CONFIRMATION`. -/
def handleCategorySelection (message : String) (ctx : ConversationContext)
    (env : Env) : StepResult :=
  let category := chooseCategory message
  let ctx1 := { ctx with category := some category }
  let dd : ℚ × ℚ :=
    match env.quote.success, env.quote.cotacao with
    | true, some c => (jsOrNum (some c.distanciaKm) 3, jsOrNum (some c.tempoEstimado) 8)
    | _, _ => (3, 8)
  let distanceKm := dd.1
  let durationMin := dd.2
  let ctx2 := { ctx1 with estimatedDistance := some distanceKm
                          estimatedDuration := some durationMin }
  let price := calculatePrice category distanceKm durationMin
  let rules := PRICING_RULES category
  let price := if price < rules.minimumFare then rules.minimumFare else price
  let ctx3 := { ctx2 with estimatedPrice := some price }
  { stateUpdates := [(.AWAITING_CONFIRMATION, ctx3)]
    messages := [.buttons (.priceSummary (optAddress ctx3.origin)
      (optAddress ctx3.destination) rules.displayName price) confirmButtons] }

/-- `!context.estimatedPrice || context.estimatedPrice <= 0` precondition
failure of `createRide`. -/
def priceMissingOrInvalid (ctx : ConversationContext) : Bool :=
  match ctx.estimatedPrice with
  | none => true
  | some p => decide (p ≤ 0)

/-- `!context.origin?.address || !context.destination?.address`
precondition failure of `createRide` (an empty address string is falsy). -/
def addressMissing (ctx : ConversationContext) : Bool :=
  !jsTruthyStr (ctx.origin.map Location.address)
    || !jsTruthyStr (ctx.destination.map Location.address)

/-- `createRide` (conversation side): validate, call the provider, always
persist one ride row and one event for the attempt, then notify. -/
def createRide (conv : Conv) (ctx : ConversationContext) (env : Env) :
    StepResult :=
  if priceMissingOrInvalid ctx then
    { messages := [.buttons .priceError retryCancelButtons]
      stateUpdates := [(.AWAITING_CATEGORY, ctx)] }
  else if addressMissing ctx then
    { messages := [.buttons .addressError [⟨"start_over", "Começar de novo"⟩]]
      stateUpdates := [(.GREETING, {})] }
  else
    let req : CreateRideReq :=
      { origemEndereco := addrOrEmpty ctx.origin
        origemLatitude := ctx.origin.bind Location.latitude
        origemLongitude := ctx.origin.bind Location.longitude
        destinoEndereco := addrOrEmpty ctx.destination
        destinoLatitude := ctx.destination.bind Location.latitude
        destinoLongitude := ctx.destination.bind Location.longitude
        passageiroNome := conv.customerName.getD "Cliente WhatsApp"
        passageiroTelefone := conv.phoneNumber
        categoria := mapCategoryToApi ctx.category
        formaPagamento := "D" }
    let rideResult := mgCreateRide env.createOutcome
    let row : RideRow :=
      { id := env.newRideId
        machineRideId := rideResult.corrida.map Corrida.id
        originAddress := addrOrEmpty ctx.origin
        originLatitude := ctx.origin.bind Location.latitude
        originLongitude := ctx.origin.bind Location.longitude
        destinationAddress := addrOrEmpty ctx.destination
        destinationLatitude := ctx.destination.bind Location.latitude
        destinationLongitude := ctx.destination.bind Location.longitude
        category := ctx.category.getD .CARRO_PEQUENO
        estimatedPrice := ctx.estimatedPrice
        estimatedDistance := ctx.estimatedDistance
        estimatedDuration := ctx.estimatedDuration
        status := if rideResult.success then .DISTRIBUTING else .FAILED }
    let event : RideEventRow :=
      { rideId := env.newRideId
        eventType := if rideResult.success then "INFO" else "ERROR"
        title := if rideResult.success then "Corrida criada"
                 else "Falha ao criar corrida" }
    if rideResult.success then
      { stateUpdates := [(.CREATING_RIDE, ctx), (.RIDE_CREATED, ctx)]
        messages := [.text .searchingDrivers,
          .text (.rideConfirmed (displayNameOrDefault ctx.category)
            (ctx.estimatedPrice.getD 0) ((env.newRideId.take 8).toUpper))]
        rideInserts := [row]
        rideEvents := [event]
        provCreateCalls := [req] }
    else
      { stateUpdates := [(.CREATING_RIDE, ctx), (.ERROR, ctx)]
        messages := [.text .searchingDrivers,
          .buttons .noDriversAvailable retryCancelButtons]
        rideInserts := [row]
        rideEvents := [event]
        provCreateCalls := [req] }

/-- `handleCancellation`: cancel a non-terminal ride locally only when it
carries a provider ride id (the provider cancel result is ignored), then
always reset and deactivate the conversation and confirm to the
customer. -/
def handleCancellation (env : Env) : StepResult :=
  let rideEffects : StepResult :=
    match env.nonTerminalRide with
    | some ride =>
      if jsTruthyStr ride.machineRideId then
        let _cancelResult := mgCancelRide env.cancelOutcome
        { provCancelCalls := [ride.machineRideId.getD ""]
          rideUpdates := [{ ride with
                            status := .CANCELLED
                            cancelledAt := some env.now }]
          rideEvents := [{ rideId := ride.id
                           eventType := "WARNING"
                           title := "Corrida cancelada" }] }
      else
        {}
    | none => {}
  { rideEffects with
      stateUpdates := [(.GREETING, {})]
      deactivated := true
      messages := [.text .cancellationMessage] }

/-- Change-category branch guard of `handleConfirmation`. -/
def changeCategoryReq (message : String) : Bool :=
  jsIncludes (jsToLower message) "mudar" || jsIncludes (jsToLower message) "change"
    || message = "change_category"

/-- Change-origin branch guard of `handleConfirmation`. -/
def changeOriginReq (message : String) : Bool :=
  jsIncludes (jsToLower message) "origem" || jsIncludes (jsToLower message) "embarque"
    || jsIncludes (jsToLower message) "partida"

/-- Change-destination branch guard of `handleConfirmation`. -/
def changeDestReq (message : String) : Bool :=
  jsIncludes (jsToLower message) "destino" || jsIncludes (jsToLower message) "para onde"

/-- Explicit-confirmation guard of `handleConfirmation`: classifier
`isConfirmation`, a text containing `confirm` or `sim`, or the
`confirm_ride` button id. -/
def confirmReq (message : String) (intent : RideIntent) : Bool :=
  intent.isConfirmation || jsIncludes (jsToLower message) "confirm"
    || jsIncludes (jsToLower message) "sim" || message = "confirm_ride"

/-- Cancellation guard of `handleConfirmation`. -/
def cancelReq (message : String) (intent : RideIntent) : Bool :=
  intent.isCancellation || message = "cancel_ride"
    || jsIncludes (jsToLower message) "cancelar"

/-- The booking-summary re-display of `handleConfirmation`'s fallback arm
(absent price renders as `0.00`). -/
def confirmationFallback (ctx : ConversationContext) : StepResult :=
  { messages := [.buttons (.priceSummary (optAddress ctx.origin)
      (optAddress ctx.destination) (displayNameOrDefault ctx.category)
      (ctx.estimatedPrice.getD 0)) confirmButtons] }

/-- `handleConfirmation` (states `SHOWING_PRICE` and
`AWAITING_CONFIRMATION`): change requests loop back, explicit
confirmation creates the ride, explicit cancellation cancels, anything
else re-displays the summary without touching the conversation. -/
def handleConfirmation (conv : Conv) (message : String) (intent : RideIntent)
    (ctx : ConversationContext) (env : Env) : StepResult :=
  if changeCategoryReq message then
    { stateUpdates := [(.AWAITING_CATEGORY, ctx)]
      messages := [showCategorySelection ctx] }
  else if changeOriginReq message then
    { stateUpdates := [(.AWAITING_ORIGIN, ctx)]
      messages := [.locationRequest .newOriginPrompt] }
  else if changeDestReq message then
    { stateUpdates := [(.AWAITING_DESTINATION, ctx)]
      messages := [.locationRequest .newDestinationPrompt] }
  else if confirmReq message intent then
    createRide conv ctx env
  else if cancelReq message intent then
    handleCancellation env
  else
    confirmationFallback ctx

/-- `handleActiveRide` (states `RIDE_CREATED` / `RIDE_IN_PROGRESS`):
report ride status, resume a mid-flight flow, or restart the greeting. -/
def handleActiveRide (conv : Conv) (intent : RideIntent)
    (ctx : ConversationContext) (env : Env) : StepResult :=
  match env.activeRide with
  | none =>
    if jsTruthyBool ctx.flowStarted
        && (ctx.origin.isSome || ctx.destination.isSome) then
      if ctx.origin.isNone then
        { stateUpdates := [(.REQUESTING_LOCATION, ctx)]
          messages := [.locationRequest .resumeLocationPrompt] }
      else if ctx.destination.isNone then
        { stateUpdates := [(.AWAITING_DESTINATION, ctx)]
          messages := [.text .resumeDestinationPrompt] }
      else
        { stateUpdates := [(.AWAITING_CATEGORY, ctx)]
          messages := [showCategorySelection ctx] }
    else
      let greet := handleGreeting conv intent {} env
      { greet with stateUpdates := (.GREETING, {}) :: greet.stateUpdates }
  | some ride =>
    if intent.isCancellation then
      { messages := [.buttons .cancelConfirmQuestion
          [⟨"confirm_cancel", "Sim, Cancelar"⟩, ⟨"keep_ride", "Não, Manter"⟩]] }
    else
      { messages := [.text (.activeRideStatus ride.status ride.driverName
          ride.driverVehicle ride.driverPlate)] }

/-- `handleState`: global cancellation override, then per-state dispatch
(the default arm resets unknown states through the greeting). -/
def handleState (conv : Conv) (message : String) (messageType : MsgType)
    (meta : Meta) (intent : RideIntent) (ctx : ConversationContext)
    (env : Env) : StepResult :=
  if intent.isCancellation && conv.state ≠ .GREETING then
    handleCancellation env
  else
    match conv.state with
    | .GREETING => handleGreeting conv intent ctx env
    | .REQUESTING_LOCATION =>
        handleLocationRequest message messageType meta intent ctx env
    | .AWAITING_ORIGIN => handleOriginInput messageType meta ctx env
    | .CONFIRMING_ORIGIN =>
        handleOriginConfirmation message messageType meta intent ctx env
    | .AWAITING_DESTINATION =>
        handleDestinationInput message messageType meta intent ctx env
    | .AWAITING_CATEGORY => handleCategorySelection message ctx env
    | .SHOWING_PRICE => handleConfirmation conv message intent ctx env
    | .AWAITING_CONFIRMATION => handleConfirmation conv message intent ctx env
    | .RIDE_CREATED => handleActiveRide conv intent ctx env
    | .RIDE_IN_PROGRESS => handleActiveRide conv intent ctx env
    | _ => handleGreeting conv intent ctx env

/-! ### Provider callback path (`handleMachineWebhook`) -/

/-- `motorista` block of a provider status callback. -/
structure WebhookDriver where
  nome : String
  telefone : String
  veiculo : Option String := none
  placa : Option String := none
  avaliacao : Option ℚ := none
deriving DecidableEq, Repr

/-- Provider status callback payload. -/
structure WebhookPayload where
  corrida_id : String
  status : String
  motorista : Option WebhookDriver := none
  tempo_chegada : Option ℚ := none
deriving DecidableEq, Repr

/-- Prisma update semantics for an optional field: an `undefined` value
leaves the stored field unchanged. -/
def updOpt (newVal old : Option α) : Option α :=
  match newVal with
  | some v => some v
  | none => old

/-- Enum name of a local ride status (used in the `Status: {s}` event
title). -/
def statusName (s : RideStatus) : String :=
  match s with
  | .REQUESTED => "REQUESTED"
  | .DISTRIBUTING => "DISTRIBUTING"
  | .AWAITING_ACCEPT => "AWAITING_ACCEPT"
  | .PENDING => "PENDING"
  | .NO_DRIVER => "NO_DRIVER"
  | .ACCEPTED => "ACCEPTED"
  | .DRIVER_ARRIVING => "DRIVER_ARRIVING"
  | .DRIVER_ARRIVED => "DRIVER_ARRIVED"
  | .IN_PROGRESS => "IN_PROGRESS"
  | .COMPLETED => "COMPLETED"
  | .CANCELLED => "CANCELLED"
  | .AWAITING_PAYMENT => "AWAITING_PAYMENT"
  | .FAILED => "FAILED"

/-- The `prisma.ride.update` of `handleMachineWebhook`: the status is
overwritten with the mapped callback status unconditionally; each of the
accept/start/complete timestamps is overwritten with the current time
whenever the callback carries the corresponding provider code
(`'A'`/`'E'`/`'F'`) and kept otherwise; driver fields follow Prisma's
skip-on-undefined rule. -/
def webhookUpdateRide (ride : RideRow) (data : WebhookPayload)
    (now : Timestamp) : RideRow :=
  { ride with
    status := mapStatus data.status
    driverName := updOpt (data.motorista.map WebhookDriver.nome) ride.driverName
    driverPhone := updOpt (data.motorista.map WebhookDriver.telefone) ride.driverPhone
    driverVehicle := updOpt (data.motorista.bind WebhookDriver.veiculo) ride.driverVehicle
    driverPlate := updOpt (data.motorista.bind WebhookDriver.placa) ride.driverPlate
    driverRating := updOpt (data.motorista.bind WebhookDriver.avaliacao) ride.driverRating
    acceptedAt := if data.status = "A" then some now else ride.acceptedAt
    startedAt := if data.status = "E" then some now else ride.startedAt
    completedAt := if data.status = "F" then some now else ride.completedAt }

/-- Displayed final price of the completion notice:
`ride.finalPrice?.toFixed(2) || ride.estimatedPrice?.toFixed(2) || '0.00'`. -/
def finishedPrice (ride : RideRow) : ℚ :=
  match ride.finalPrice with
  | some p => p
  | none => ride.estimatedPrice.getD 0

/-- `handleMachineWebhook`: look up the ride by provider ride id
(`lookup` is the `prisma.ride.findFirst` result); drop unknown callbacks,
otherwise update the ride, append an event and notify per status code. -/
def handleMachineWebhook (lookup : Option RideRow) (data : WebhookPayload)
    (now : Timestamp) : StepResult :=
  match lookup with
  | none => {}
  | some ride =>
    let newStatus := mapStatus data.status
    let updated := webhookUpdateRide ride data now
    let event : RideEventRow :=
      { rideId := ride.id, eventType := "INFO"
        title := "Status: " ++ statusName newStatus }
    let notify : StepResult :=
      if data.status = "A" then
        match data.motorista with
        | some m =>
          { messages := [.text (.driverAssigned m.nome (m.veiculo.getD "Veículo")
              (m.placa.getD "") (jsOrNum data.tempo_chegada 10) m.avaliacao)]
            stateUpdates := [(.RIDE_IN_PROGRESS, {})] }
        | none => {}
      else if data.status = "N" then
        { messages := [.buttons .noDriverMessage retryCancelButtons] }
      else if data.status = "F" then
        { messages := [.text (.rideFinished (finishedPrice ride))]
          stateUpdates := [(.RIDE_COMPLETED, {})]
          deactivated := true }
      else if data.status = "C" then
        { messages := [.text .rideCancelledNotice] }
      else
        {}
    { notify with
        rideUpdates := [updated]
        rideEvents := [event] }

/-- Folding a sequence of processed callbacks over a ride row. -/
def applyWebhooks (ride : RideRow) :
    List (WebhookPayload × Timestamp) → RideRow
  | [] => ride
  | (data, now) :: rest => applyWebhooks (webhookUpdateRide ride data now) rest

/-! ## Theorems -/

/-- C2: for every vehicle class in the rate table and all non-negative
distance and duration, `calculatePrice` equals
`max(baseFare + d·pricePerKm + t·pricePerMinute, minimumFare)` with that
class's fixed rates, and is therefore always at least the minimum fare;
on the worked example, `calculatePrice(CARRO_PEQUENO, 3.2, 9) = 14.55`.
(Determinism and freedom from side effects hold by construction: the
embedding is a pure function of its arguments.) -/
theorem calculatePrice_formula_and_floor (d t : ℚ) (hd : 0 ≤ d) (ht : 0 ≤ t) :
    calculatePrice .CARRO_PEQUENO d t = max (5.00 + d * 2.00 + t * 0.35) 9.00 ∧
    calculatePrice .CARRO_GRANDE d t = max (7.00 + d * 2.00 + t * 0.55) 9.00 ∧
    (∀ c : VehicleCategory, (PRICING_RULES c).minimumFare ≤ calculatePrice c d t) ∧
    calculatePrice .CARRO_PEQUENO 3.2 9 = 14.55 := by
  refine ⟨rfl, rfl, fun c => le_max_right _ _, by norm_num [calculatePrice, PRICING_RULES]⟩

/-- Witness for C2 at the spec's worked example `d = 3.2`, `t = 9`. -/
theorem calculatePrice_formula_and_floor_witness :
    calculatePrice .CARRO_PEQUENO 3.2 9 = 14.55 ∧
    (9.00 : ℚ) ≤ calculatePrice .CARRO_PEQUENO 3.2 9 :=
  ⟨(calculatePrice_formula_and_floor 3.2 9 (by norm_num) (by norm_num)).2.2.2,
   (calculatePrice_formula_and_floor 3.2 9 (by norm_num) (by norm_num)).2.2.1 .CARRO_PEQUENO⟩

/-- C3 counterexample: a ride already in the terminal status `COMPLETED`
receives a provider callback with code `'C'`; `handleMachineWebhook`
updates its status to `CANCELLED`, so a terminal status is not left
unchanged. -/
theorem webhook_overwrites_terminal_status_cex :
    ((handleMachineWebhook
        (some ({ id := "r1", status := .COMPLETED } : RideRow))
        ({ corrida_id := "m1", status := "C" } : WebhookPayload) 5).rideUpdates.map
      RideRow.status) = [RideStatus.CANCELLED] ∧
    RideStatus.CANCELLED ≠ RideStatus.COMPLETED := by
  constructor
  · rfl
  · decide

/-- C3 (amended): `handleMachineWebhook` performs exactly one ride update
for a known provider ride id, and that update sets the status to the
mapped callback status unconditionally — terminal statuses included;
terminal-state finality is not enforced.  A callback for an unknown ride
id has no effect. -/
theorem webhook_status_unconditional (ride : RideRow) (data : WebhookPayload)
    (now : Timestamp) :
    (handleMachineWebhook (some ride) data now).rideUpdates =
      [webhookUpdateRide ride data now] ∧
    (webhookUpdateRide ride data now).status = mapStatus data.status ∧
    handleMachineWebhook none data now = {} := by
  exact ⟨rfl, rfl, rfl⟩

/-- C4 counterexample: processing the callback code `'A'` twice for the
same ride overwrites `acceptedAt` (first `t = 1`, then `t = 2`), so the
timestamp is not set exactly once at the first occurrence and unchanged
thereafter. -/
theorem webhook_timestamp_overwritten_cex :
    (applyWebhooks ({ id := "r1", status := .DISTRIBUTING } : RideRow)
      [(({ corrida_id := "m1", status := "A" } : WebhookPayload), 1)]).acceptedAt = some 1 ∧
    (applyWebhooks ({ id := "r1", status := .DISTRIBUTING } : RideRow)
      [(({ corrida_id := "m1", status := "A" } : WebhookPayload), 1),
       (({ corrida_id := "m1", status := "A" } : WebhookPayload), 2)]).acceptedAt = some 2 ∧
    (applyWebhooks ({ id := "r1", status := .DISTRIBUTING } : RideRow)
      [(({ corrida_id := "m1", status := "A" } : WebhookPayload), 1),
       (({ corrida_id := "m1", status := "A" } : WebhookPayload), 2)]).acceptedAt ≠ some 1 := by
  refine ⟨rfl, rfl, by decide⟩

/-- C4 (amended): each of `acceptedAt`/`startedAt`/`completedAt` is
overwritten with the processing time by every callback carrying the
corresponding code (`'A'`/`'E'`/`'F'`) and preserved by callbacks with
any other code; consequently processing `ACCEPTED` then `COMPLETED`
leaves the ride `COMPLETED` with `acceptedAt` from the first callback and
`completedAt` from the second. -/
theorem webhook_timestamp_discipline (ride : RideRow) (data : WebhookPayload)
    (now : Timestamp) :
    ((data.status ≠ "A" → (webhookUpdateRide ride data now).acceptedAt = ride.acceptedAt) ∧
     (data.status = "A" → (webhookUpdateRide ride data now).acceptedAt = some now)) ∧
    ((data.status ≠ "E" → (webhookUpdateRide ride data now).startedAt = ride.startedAt) ∧
     (data.status = "E" → (webhookUpdateRide ride data now).startedAt = some now)) ∧
    ((data.status ≠ "F" → (webhookUpdateRide ride data now).completedAt = ride.completedAt) ∧
     (data.status = "F" → (webhookUpdateRide ride data now).completedAt = some now)) ∧
    (∀ (d1 d2 : WebhookPayload) (t1 t2 : Timestamp),
      d1.status = "A" → d2.status = "F" →
      (applyWebhooks ride [(d1, t1), (d2, t2)]).status = .COMPLETED ∧
      (applyWebhooks ride [(d1, t1), (d2, t2)]).acceptedAt = some t1 ∧
      (applyWebhooks ride [(d1, t1), (d2, t2)]).completedAt = some t2) := by
  refine ⟨⟨fun hA1 => ?_, fun hA2 => ?_⟩,
    ⟨fun hE1 => ?_, fun hE2 => ?_⟩,
    ⟨fun hF1 => ?_, fun hF2 => ?_⟩,
    fun d1 d2 t1 t2 hAF1 hAF2 => ?_⟩ <;>
    simp_all [webhookUpdateRide, applyWebhooks, mapStatus]

/-- Witness for C4 (amended): a `'G'` callback leaves the empty
timestamps empty, and the `'A'`-then-`'F'` sequence completes the ride
with `acceptedAt = 3` and `completedAt = 9`. -/
theorem webhook_timestamp_discipline_witness :
    (webhookUpdateRide ({ id := "r1" } : RideRow)
      ({ corrida_id := "m1", status := "G" } : WebhookPayload) 7).acceptedAt = none ∧
    (applyWebhooks ({ id := "r1" } : RideRow)
      [(({ corrida_id := "m1", status := "A" } : WebhookPayload), 3),
       (({ corrida_id := "m1", status := "F" } : WebhookPayload), 9)]).status = .COMPLETED ∧
    (applyWebhooks ({ id := "r1" } : RideRow)
      [(({ corrida_id := "m1", status := "A" } : WebhookPayload), 3),
       (({ corrida_id := "m1", status := "F" } : WebhookPayload), 9)]).acceptedAt = some 3 ∧
    (applyWebhooks ({ id := "r1" } : RideRow)
      [(({ corrida_id := "m1", status := "A" } : WebhookPayload), 3),
       (({ corrida_id := "m1", status := "F" } : WebhookPayload), 9)]).completedAt = some 9 := by
  refine ⟨(webhook_timestamp_discipline ({ id := "r1" } : RideRow)
      ({ corrida_id := "m1", status := "G" } : WebhookPayload) 7).1.1 (by decide), ?_⟩
  exact (webhook_timestamp_discipline ({ id := "r1" } : RideRow)
      ({ corrida_id := "m1", status := "G" } : WebhookPayload) 7).2.2.2
    ({ corrida_id := "m1", status := "A" } : WebhookPayload)
    ({ corrida_id := "m1", status := "F" } : WebhookPayload) 3 9 rfl rfl

/-- No handler other than the confirmed-ride path ever calls the
provider's `createRide` or inserts a ride row: `handleCancellation`. -/
theorem handleCancellation_no_create (env : Env) :
    (handleCancellation env).provCreateCalls = [] ∧
    (handleCancellation env).rideInserts = [] := by
  constructor <;>
    · unfold handleCancellation
      dsimp only
      repeat' split
      all_goals rfl

/-- `handleLocationRequest` performs no provider create call and no ride
insert. -/
theorem handleLocationRequest_no_create (message : String) (messageType : MsgType)
    (meta : Meta) (intent : RideIntent) (ctx : ConversationContext) (env : Env) :
    (handleLocationRequest message messageType meta intent ctx env).provCreateCalls = [] ∧
    (handleLocationRequest message messageType meta intent ctx env).rideInserts = [] := by
  constructor <;>
    · unfold handleLocationRequest
      dsimp only
      repeat' split
      all_goals rfl

/-- `handleOriginConfirmation` performs no provider create call and no
ride insert. -/
theorem handleOriginConfirmation_no_create (message : String) (messageType : MsgType)
    (meta : Meta) (intent : RideIntent) (ctx : ConversationContext) (env : Env) :
    (handleOriginConfirmation message messageType meta intent ctx env).provCreateCalls = [] ∧
    (handleOriginConfirmation message messageType meta intent ctx env).rideInserts = [] := by
  constructor <;>
    · unfold handleOriginConfirmation
      dsimp only
      repeat' split
      all_goals rfl

/-- `handleOriginInput` performs no provider create call and no ride
insert. -/
theorem handleOriginInput_no_create (messageType : MsgType) (meta : Meta)
    (ctx : ConversationContext) (env : Env) :
    (handleOriginInput messageType meta ctx env).provCreateCalls = [] ∧
    (handleOriginInput messageType meta ctx env).rideInserts = [] := by
  constructor <;>
    · unfold handleOriginInput
      dsimp only
      repeat' split
      all_goals rfl

/-- `handleDestinationInput` performs no provider create call and no ride
insert. -/
theorem handleDestinationInput_no_create (message : String) (messageType : MsgType)
    (meta : Meta) (intent : RideIntent) (ctx : ConversationContext) (env : Env) :
    (handleDestinationInput message messageType meta intent ctx env).provCreateCalls = [] ∧
    (handleDestinationInput message messageType meta intent ctx env).rideInserts = [] := by
  constructor <;>
    · unfold handleDestinationInput
      dsimp only
      repeat' split
      all_goals rfl

/-- `handleCategorySelection` performs no provider create call and no
ride insert. -/
theorem handleCategorySelection_no_create (message : String)
    (ctx : ConversationContext) (env : Env) :
    (handleCategorySelection message ctx env).provCreateCalls = [] ∧
    (handleCategorySelection message ctx env).rideInserts = [] :=
  ⟨rfl, rfl⟩

/-- `handleActiveRide` performs no provider create call and no ride
insert. -/
theorem handleActiveRide_no_create (conv : Conv) (intent : RideIntent)
    (ctx : ConversationContext) (env : Env) :
    (handleActiveRide conv intent ctx env).provCreateCalls = [] ∧
    (handleActiveRide conv intent ctx env).rideInserts = [] := by
  constructor <;>
    · unfold handleActiveRide
      dsimp only
      repeat' split
      all_goals rfl

/-- `handleConfirmation` performs no provider create call and no ride
insert unless the explicit confirmation guard holds. -/
theorem handleConfirmation_no_create (conv : Conv) (message : String)
    (intent : RideIntent) (ctx : ConversationContext) (env : Env)
    (hc : confirmReq message intent = false) :
    (handleConfirmation conv message intent ctx env).provCreateCalls = [] ∧
    (handleConfirmation conv message intent ctx env).rideInserts = [] := by
  unfold handleConfirmation
  split
  · exact ⟨rfl, rfl⟩
  split
  · exact ⟨rfl, rfl⟩
  split
  · exact ⟨rfl, rfl⟩
  split
  · next hcon => rw [hc] at hcon; exact absurd hcon (by simp)
  split
  · exact handleCancellation_no_create env
  · exact ⟨rfl, rfl⟩

/-- C1: a provider `createRide` call or a ride-row insert can only happen
when the conversation is in `SHOWING_PRICE` or `AWAITING_CONFIRMATION`
(both dispatch to `handleConfirmation`) and the inbound event passes the
explicit confirmation guard (classifier `isConfirmation`, a text
containing `confirm`/`sim`, or the `confirm_ride` button); and any input
in `AWAITING_CONFIRMATION` matching none of the change/confirm/cancel
guards produces exactly the summary-and-buttons re-display with no state
update and no other effect, and that re-display carries the same summary
message `handleCategorySelection` showed for the context it stored. -/
theorem ride_creation_requires_confirmation (conv : Conv) (message : String)
    (messageType : MsgType) (meta : Meta) (intent : RideIntent)
    (ctx : ConversationContext) (env : Env) :
    (¬((conv.state = .SHOWING_PRICE ∨ conv.state = .AWAITING_CONFIRMATION) ∧
        confirmReq message intent = true) →
      (handleState conv message messageType meta intent ctx env).provCreateCalls = [] ∧
      (handleState conv message messageType meta intent ctx env).rideInserts = []) ∧
    (conv.state = .AWAITING_CONFIRMATION → intent.isCancellation = false →
      changeCategoryReq message = false → changeOriginReq message = false →
      changeDestReq message = false → confirmReq message intent = false →
      cancelReq message intent = false →
      handleState conv message messageType meta intent ctx env =
        confirmationFallback ctx) ∧
    (∀ (msg0 : String) (ctx0 : ConversationContext) (env0 : Env)
        (st : ConversationState) (ctx1 : ConversationContext),
      (handleCategorySelection msg0 ctx0 env0).stateUpdates = [(st, ctx1)] →
      (confirmationFallback ctx1).messages =
        (handleCategorySelection msg0 ctx0 env0).messages) := by
  refine ⟨fun hgate => ?_, fun hstate hcanc h1 h2 h3 h4 h5 => ?_,
    fun msg0 ctx0 env0 st ctx1 h => ?_⟩
  · unfold handleState
    split
    · exact handleCancellation_no_create env
    split
    · exact ⟨rfl, rfl⟩
    · exact handleLocationRequest_no_create ..
    · exact handleOriginInput_no_create ..
    · exact handleOriginConfirmation_no_create ..
    · exact handleDestinationInput_no_create ..
    · exact handleCategorySelection_no_create ..
    · next hsp =>
        by_cases hc : confirmReq message intent = true
        · exact absurd ⟨Or.inl hsp, hc⟩ hgate
        · exact handleConfirmation_no_create conv message intent ctx env
            (by simpa using hc)
    · next hac =>
        by_cases hc : confirmReq message intent = true
        · exact absurd ⟨Or.inr hac, hc⟩ hgate
        · exact handleConfirmation_no_create conv message intent ctx env
            (by simpa using hc)
    · exact handleActiveRide_no_create ..
    · exact handleActiveRide_no_create ..
    · exact ⟨rfl, rfl⟩
  · unfold handleState
    simp only [hstate, hcanc, Bool.false_and, if_neg (by simp : ¬(false = true))]
    unfold handleConfirmation
    simp [h1, h2, h3, h4, h5]
  · unfold handleCategorySelection at h ⊢
    simp only [List.cons.injEq, Prod.mk.injEq, and_true] at h
    obtain ⟨-, h2⟩ := h
    subst h2
    rfl

/-- The defensive re-clamp after `calculatePrice` never fires, because
the computed price is already at least the minimum fare. -/
theorem clamp_eq_calculatePrice (category : VehicleCategory) (d t : ℚ) :
    (if calculatePrice category d t < (PRICING_RULES category).minimumFare
      then (PRICING_RULES category).minimumFare
      else calculatePrice category d t) = calculatePrice category d t := by
  rw [if_neg]
  exact not_lt.mpr (le_max_right _ _)

/-- C5: when the pre-dispatch validation passes, `createRide` persists
exactly one ride row (status `DISTRIBUTING` when the provider call
succeeds, `FAILED` otherwise), appends exactly one ride event, makes
exactly one provider call, and on provider failure moves the conversation
to `ERROR` and shows the retry/cancel buttons; a thrown provider error is
absorbed by the provider client into a failure result, so the function
returns normally (it is total by construction). -/
theorem createRide_persists_every_attempt (conv : Conv)
    (ctx : ConversationContext) (env : Env)
    (hp : priceMissingOrInvalid ctx = false) (ha : addressMissing ctx = false) :
    (createRide conv ctx env).rideInserts.map RideRow.status =
      [if (mgCreateRide env.createOutcome).success then .DISTRIBUTING else .FAILED] ∧
    (createRide conv ctx env).rideEvents.length = 1 ∧
    (createRide conv ctx env).provCreateCalls.length = 1 ∧
    ((mgCreateRide env.createOutcome).success = false →
      (createRide conv ctx env).stateUpdates = [(.CREATING_RIDE, ctx), (.ERROR, ctx)] ∧
      (createRide conv ctx env).messages =
        [.text .searchingDrivers, .buttons .noDriversAvailable retryCancelButtons]) ∧
    (∀ e : String, (mgCreateRide (.thrown e)).success = false) := by
  refine ⟨?_, ?_, ?_, ?_, fun e => rfl⟩ <;>
    · unfold createRide
      rw [hp, ha]
      simp only [Bool.false_eq_true, if_false]
      cases hs : (mgCreateRide env.createOutcome).success <;> simp [hs]

/-- Witness for C5: a validated context with the default (failing)
provider outcome persists a `FAILED` row and moves to `ERROR`. -/
theorem createRide_persists_every_attempt_witness :
    ((createRide ⟨"c1", "p", "u", none, .AWAITING_CONFIRMATION⟩
        ({ origin := some { address := "Rua A, 1" }
           destination := some { address := "Rua B, 2" }
           category := some .CARRO_PEQUENO
           estimatedPrice := some 13.8 } : ConversationContext)
        {}).rideInserts.map RideRow.status = [RideStatus.FAILED]) ∧
    ((createRide ⟨"c1", "p", "u", none, .AWAITING_CONFIRMATION⟩
        ({ origin := some { address := "Rua A, 1" }
           destination := some { address := "Rua B, 2" }
           category := some .CARRO_PEQUENO
           estimatedPrice := some 13.8 } : ConversationContext)
        {}).messages =
      [.text .searchingDrivers, .buttons .noDriversAvailable retryCancelButtons]) := by
  have h := createRide_persists_every_attempt
    ⟨"c1", "p", "u", none, .AWAITING_CONFIRMATION⟩
    ({ origin := some { address := "Rua A, 1" }
       destination := some { address := "Rua B, 2" }
       category := some .CARRO_PEQUENO
       estimatedPrice := some 13.8 } : ConversationContext)
    {} (by norm_num [priceMissingOrInvalid]) (by decide)
  refine ⟨?_, (h.2.2.2.1 rfl).2⟩
  have h1 := h.1
  simpa using h1

/-- C6: when the pre-dispatch validation fails, `createRide` aborts with
a user-facing message before any provider call or ride insert — back to
`AWAITING_CATEGORY` on a missing/invalid price, back to `GREETING` (with
a cleared context) on a missing address. -/
theorem createRide_precondition_abort (conv : Conv)
    (ctx : ConversationContext) (env : Env) :
    (priceMissingOrInvalid ctx = true →
      createRide conv ctx env =
        { messages := [.buttons .priceError retryCancelButtons]
          stateUpdates := [(.AWAITING_CATEGORY, ctx)] }) ∧
    (priceMissingOrInvalid ctx = false → addressMissing ctx = true →
      createRide conv ctx env =
        { messages := [.buttons .addressError [⟨"start_over", "Começar de novo"⟩]]
          stateUpdates := [(.GREETING, {})] }) ∧
    (priceMissingOrInvalid ctx = true ∨ addressMissing ctx = true →
      (createRide conv ctx env).provCreateCalls = [] ∧
      (createRide conv ctx env).rideInserts = []) := by
  refine ⟨fun hp => ?_, fun hp ha => ?_, fun hor => ?_⟩
  · unfold createRide
    rw [hp]
    rfl
  · unfold createRide
    rw [hp, ha]
    rfl
  · unfold createRide
    rcases hor with hp | ha
    · rw [hp]
      exact ⟨rfl, rfl⟩
    · cases hp : priceMissingOrInvalid ctx
      · rw [ha]
        exact ⟨rfl, rfl⟩
      · exact ⟨rfl, rfl⟩

/-- Witness for C6 at both failure modes: an empty context has no price
(abort to `AWAITING_CATEGORY`); a context with a valid price but no
addresses aborts to `GREETING`. -/
theorem createRide_precondition_abort_witness :
    createRide ⟨"c1", "p", "u", none, .AWAITING_CONFIRMATION⟩ {} {} =
      { messages := [.buttons .priceError retryCancelButtons]
        stateUpdates := [(.AWAITING_CATEGORY, {})] } ∧
    createRide ⟨"c1", "p", "u", none, .AWAITING_CONFIRMATION⟩
        ({ estimatedPrice := some 10 } : ConversationContext) {} =
      { messages := [.buttons .addressError [⟨"start_over", "Começar de novo"⟩]]
        stateUpdates := [(.GREETING, {})] } ∧
    (createRide ⟨"c1", "p", "u", none, .AWAITING_CONFIRMATION⟩ {} {}).provCreateCalls = [] :=
  ⟨(createRide_precondition_abort ⟨"c1", "p", "u", none, .AWAITING_CONFIRMATION⟩ {} {}).1 rfl,
   (createRide_precondition_abort ⟨"c1", "p", "u", none, .AWAITING_CONFIRMATION⟩
      ({ estimatedPrice := some 10 } : ConversationContext) {}).2.1
      (by norm_num [priceMissingOrInvalid]) rfl,
   ((createRide_precondition_abort ⟨"c1", "p", "u", none, .AWAITING_CONFIRMATION⟩ {} {}).2.2
      (Or.inl rfl)).1⟩

/-- C7: a cancellation intent in any state other than `GREETING` routes
to `handleCancellation` before any per-state dispatch, and when the
non-terminal ride lookup finds nothing, cancellation touches no ride
(no update, no provider cancel, no ride event). -/
theorem cancellation_override_and_noop (conv : Conv) (message : String)
    (messageType : MsgType) (meta : Meta) (intent : RideIntent)
    (ctx : ConversationContext) (env : Env) :
    (intent.isCancellation = true → conv.state ≠ .GREETING →
      handleState conv message messageType meta intent ctx env =
        handleCancellation env) ∧
    (env.nonTerminalRide = none →
      (handleCancellation env).rideUpdates = [] ∧
      (handleCancellation env).provCancelCalls = [] ∧
      (handleCancellation env).rideEvents = []) := by
  constructor
  · intro hc hs
    unfold handleState
    rw [if_pos (by simp [hc, hs])]
  · intro hn
    unfold handleCancellation
    rw [hn]
    exact ⟨rfl, rfl, rfl⟩

/-- Witness for C7: a cancellation intent in `AWAITING_CONFIRMATION` with
no non-terminal ride routes to cancellation and touches no ride. -/
theorem cancellation_override_and_noop_witness :
    handleState ⟨"c1", "p", "u", none, .AWAITING_CONFIRMATION⟩ "tanto faz" .text {}
        ({ isCancellation := true } : RideIntent) {} {} = handleCancellation {} ∧
    (handleCancellation ({} : Env)).rideUpdates = [] ∧
    (handleCancellation ({} : Env)).provCancelCalls = [] :=
  ⟨(cancellation_override_and_noop ⟨"c1", "p", "u", none, .AWAITING_CONFIRMATION⟩
      "tanto faz" .text {} ({ isCancellation := true } : RideIntent) {} {}).1 rfl (by decide),
   ((cancellation_override_and_noop ⟨"c1", "p", "u", none, .AWAITING_CONFIRMATION⟩
      "tanto faz" .text {} ({ isCancellation := true } : RideIntent) {} {}).2 rfl).1,
   ((cancellation_override_and_noop ⟨"c1", "p", "u", none, .AWAITING_CONFIRMATION⟩
      "tanto faz" .text {} ({ isCancellation := true } : RideIntent) {} {}).2 rfl).2.1⟩

/-- C8 counterexample: a non-terminal ride without a provider ride id is
not cancelled locally — `handleCancellation` performs no ride update for
it, contradicting the claim that every non-terminal ride is set to
`CANCELLED`. -/
theorem cancellation_skips_rides_without_provider_id_cex :
    (handleCancellation
        ({ nonTerminalRide :=
            some ({ id := "r8", status := .DISTRIBUTING } : RideRow) } : Env)).rideUpdates = [] ∧
    (handleCancellation
        ({ nonTerminalRide :=
            some ({ id := "r8", status := .DISTRIBUTING } : RideRow) } : Env)).rideEvents = [] ∧
    (RideStatus.DISTRIBUTING ≠ .COMPLETED ∧ RideStatus.DISTRIBUTING ≠ .CANCELLED ∧
      RideStatus.DISTRIBUTING ≠ .FAILED) := by
  exact ⟨rfl, rfl, by decide⟩

/-- C8 (amended): for a non-terminal ride that carries a (non-empty)
provider ride id, cancellation calls the provider cancel, sets the ride
`CANCELLED` with `cancelledAt`, appends one ride event, resets and
deactivates the conversation and confirms to the customer — and the local
cancellation is independent of the provider cancel outcome, which the
provider client absorbs without throwing.  A non-terminal ride without a
provider id is left untouched (only the conversation is reset). -/
theorem cancellation_with_provider_id (env : Env) (ride : RideRow) (mid : String)
    (hr : env.nonTerminalRide = some ride) (hm : ride.machineRideId = some mid)
    (hne : mid ≠ "") :
    handleCancellation env =
      { provCancelCalls := [mid]
        rideUpdates := [{ ride with status := .CANCELLED, cancelledAt := some env.now }]
        rideEvents := [{ rideId := ride.id, eventType := "WARNING"
                         title := "Corrida cancelada" }]
        stateUpdates := [(.GREETING, {})]
        deactivated := true
        messages := [.text .cancellationMessage] } ∧
    (∀ o : ProviderOutcome CancelResponse,
      handleCancellation { env with cancelOutcome := o } = handleCancellation env) ∧
    (∀ e : String, (mgCancelRide (.thrown e)).success = false) := by
  refine ⟨?_, fun o => rfl, fun e => rfl⟩
  unfold handleCancellation
  rw [hr]
  simp only [jsTruthyStr, hm]
  rw [if_pos (by simp [hne])]
  rfl

/-- Witness for C8 (amended) on a concrete accepted ride with provider id
`M1`. -/
theorem cancellation_with_provider_id_witness :
    handleCancellation
        ({ nonTerminalRide :=
             some ({ id := "r9"
                     machineRideId := some "M1"
                     status := .ACCEPTED } : RideRow)
           now := 4 } : Env) =
      { provCancelCalls := ["M1"]
        rideUpdates := [{ ({ id := "r9"
                             machineRideId := some "M1"
                             status := .ACCEPTED } : RideRow) with
                          status := .CANCELLED
                          cancelledAt := some 4 }]
        rideEvents := [{ rideId := "r9"
                         eventType := "WARNING"
                         title := "Corrida cancelada" }]
        stateUpdates := [(.GREETING, {})]
        deactivated := true
        messages := [.text .cancellationMessage] } :=
  (cancellation_with_provider_id
    ({ nonTerminalRide :=
         some ({ id := "r9"
                 machineRideId := some "M1"
                 status := .ACCEPTED } : RideRow)
       now := 4 } : Env)
    ({ id := "r9", machineRideId := some "M1", status := .ACCEPTED } : RideRow)
    "M1" rfl rfl (by decide)).1

/-- Witness for C1: in `AWAITING_CONFIRMATION`, the neutral text `abc`
(no confirm/change/cancel match, no classifier flags) produces only the
summary re-display with no state update, no provider call, and no ride
row, and that summary equals the one shown after category selection. -/
theorem ride_creation_requires_confirmation_witness :
    (handleState ⟨"c1", "p", "u", none, .AWAITING_CONFIRMATION⟩ "abc" .text {} {} {} {}).provCreateCalls = [] ∧
    (handleState ⟨"c1", "p", "u", none, .AWAITING_CONFIRMATION⟩ "abc" .text {} {} {} {}).rideInserts = [] ∧
    handleState ⟨"c1", "p", "u", none, .AWAITING_CONFIRMATION⟩ "abc" .text {} {} {} {} =
      confirmationFallback {} ∧
    (confirmationFallback
        ({ category := some .CARRO_PEQUENO
           estimatedDistance := some 3
           estimatedDuration := some 8
           estimatedPrice := some (calculatePrice .CARRO_PEQUENO 3 8) } :
          ConversationContext)).messages =
      (handleCategorySelection "abc" {} {}).messages := by
  have h := ride_creation_requires_confirmation
    ⟨"c1", "p", "u", none, .AWAITING_CONFIRMATION⟩ "abc" .text {} {} {} {}
  have hgate := h.1 (by decide)
  refine ⟨hgate.1, hgate.2, h.2.1 rfl rfl (by decide) (by decide) (by decide)
    (by decide) (by decide), ?_⟩
  exact h.2.2 "abc" {} {} .AWAITING_CONFIRMATION
    ({ category := some .CARRO_PEQUENO
       estimatedDistance := some 3
       estimatedDuration := some 8
       estimatedPrice := some (calculatePrice .CARRO_PEQUENO 3 8) } :
      ConversationContext)
    (by
      unfold handleCategorySelection
      dsimp only
      rw [clamp_eq_calculatePrice]
      rfl)

/-- C9: when the provider quote fails (unsuccessful or without a
`cotacao`), category selection substitutes the fixed defaults 3.0 km and
8 minutes, still computes the price from the local formula, and still
advances to `AWAITING_CONFIRMATION`; and the result never depends on the
provider's own quoted price `valorEstimado`. -/
theorem quote_failure_uses_defaults (message : String)
    (ctx : ConversationContext) (env : Env) :
    (env.quote.success = false ∨ env.quote.cotacao = none →
      (handleCategorySelection message ctx env).stateUpdates.map Prod.fst =
        [.AWAITING_CONFIRMATION] ∧
      (handleCategorySelection message ctx env).stateUpdates.map
        (fun su => su.2.estimatedDistance) = [some 3] ∧
      (handleCategorySelection message ctx env).stateUpdates.map
        (fun su => su.2.estimatedDuration) = [some 8] ∧
      (handleCategorySelection message ctx env).stateUpdates.map
        (fun su => su.2.estimatedPrice) =
        [some (calculatePrice (chooseCategory message) 3 8)]) ∧
    (∀ v : ℚ,
      handleCategorySelection message ctx
        { env with quote := { env.quote with
            cotacao := env.quote.cotacao.map (fun c => { c with valorEstimado := v }) } } =
      handleCategorySelection message ctx env) := by
  constructor
  · intro hfail
    unfold handleCategorySelection
    have hdd : (match env.quote.success, env.quote.cotacao with
        | true, some c => (jsOrNum (some c.distanciaKm) 3, jsOrNum (some c.tempoEstimado) 8)
        | _, _ => ((3 : ℚ), (8 : ℚ))) = ((3 : ℚ), (8 : ℚ)) := by
      rcases hfail with hf | hf
      · rw [hf]
      · rw [hf]
        cases env.quote.success <;> rfl
    rw [hdd]
    simp [clamp_eq_calculatePrice]
  · intro v
    unfold handleCategorySelection
    cases hc : env.quote.cotacao <;> cases hs : env.quote.success <;>
      simp [hc, hs]

/-- Witness for C9: with the default (failing) quote, choosing
`Carro Grande` stores the 3 km / 8 min defaults and the locally computed
price, and changing the provider's quoted price leaves the result
untouched. -/
theorem quote_failure_uses_defaults_witness :
    ((handleCategorySelection "grande" {} {}).stateUpdates.map
      (fun su => su.2.estimatedPrice) =
      [some (calculatePrice .CARRO_GRANDE 3 8)]) ∧
    handleCategorySelection "grande" {}
        ({ quote := { success := false
                      cotacao := Option.map (fun c => { c with valorEstimado := 999 })
                        (({} : Env).quote.cotacao) } } : Env) =
      handleCategorySelection "grande" {} {} := by
  constructor
  · exact ((quote_failure_uses_defaults "grande" {} {}).1 (Or.inl rfl)).2.2.2
  · exact (quote_failure_uses_defaults "grande" {} {}).2 999

/-- C10 counterexample: in `REQUESTING_LOCATION`, a typed (non-location)
message arriving 100 seconds after the location request
(`locationRequestTime = 0`, `now = 100000` ms, well past the claimed
30-second threshold) only re-prompts for GPS; no transition to
`AWAITING_ORIGIN` (or any other state) occurs. -/
theorem no_thirty_second_fallback_cex :
    (handleState ⟨"c1", "p", "u", none, .REQUESTING_LOCATION⟩ "quero um taxi" .text {}
        {} ({ locationRequestTime := some 0 } : ConversationContext)
        ({ now := 100000 } : Env)).stateUpdates = [] ∧
    (handleState ⟨"c1", "p", "u", none, .REQUESTING_LOCATION⟩ "quero um taxi" .text {}
        {} ({ locationRequestTime := some 0 } : ConversationContext)
        ({ now := 100000 } : Env)).messages = [.locationRequest .gpsRetryCurrent] ∧
    100000 - 0 > 30000 := by
  exact ⟨rfl, rfl, by decide⟩

/-- C10 (amended): non-location input in `REQUESTING_LOCATION` always
re-prompts for GPS and never changes the conversation state, regardless
of how long ago the location request was sent — the stored
`locationRequestTime` is never consulted and no fallback to
`AWAITING_ORIGIN` exists in this handler. -/
theorem requesting_location_always_reprompts (conv : Conv) (message : String)
    (messageType : MsgType) (meta : Meta) (intent : RideIntent)
    (ctx : ConversationContext) (env : Env)
    (hs : conv.state = .REQUESTING_LOCATION)
    (hc : intent.isCancellation = false)
    (hng : (decide (messageType = MsgType.location) && jsTruthyNum meta.latitude
            && jsTruthyNum meta.longitude) = false) :
    (handleState conv message messageType meta intent ctx env).stateUpdates = [] ∧
    ((handleState conv message messageType meta intent ctx env).messages =
        [.locationRequest .gpsRetryCurrent] ∨
     (handleState conv message messageType meta intent ctx env).messages =
        [.locationRequest .gpsReminderTap]) := by
  unfold handleState
  rw [if_neg (by simp [hc])]
  rw [hs]
  unfold handleLocationRequest
  rw [if_neg (by simp [hng])]
  by_cases hl : message.length > 3
  · rw [if_pos (by simpa using hl)]
    exact ⟨rfl, Or.inl rfl⟩
  · rw [if_neg (by simpa using hl)]
    exact ⟨rfl, Or.inr rfl⟩

/-- Witness for C10 (amended): the typed message `quero um taxi` sent
late in `REQUESTING_LOCATION` leaves the state untouched. -/
theorem requesting_location_always_reprompts_witness :
    (handleState ⟨"c2", "p", "u", none, .REQUESTING_LOCATION⟩ "quero um taxi" .text {}
        {} ({ locationRequestTime := some 0 } : ConversationContext)
        ({ now := 999999 } : Env)).stateUpdates = [] :=
  (requesting_location_always_reprompts ⟨"c2", "p", "u", none, .REQUESTING_LOCATION⟩
    "quero um taxi" .text {} {} ({ locationRequestTime := some 0 } : ConversationContext)
    ({ now := 999999 } : Env) rfl rfl (by decide)).1

end Taxi
